import Mathlib

set_option maxHeartbeats 1000000

/- Shallow embedding of the rest-call repository: the shared REST request
pipeline of AbstractRestTemplate (file abs-rest-template.service.ts, the
retry-capable variant), the duplicated variant without retry (the unnamed
source file defining the same class), the default RestTemplateService
implementation, and the buildUrl helper. -/

/-- A JavaScript header object, modelled as an association list of keys to
string values in insertion order. -/
abbrev Headers := List (String × String)

/-- Property lookup on a header object: first entry whose key matches. -/
def hGet (hs : Headers) (k : String) : Option String :=
  (hs.find? (fun p => p.1 == k)).map Prod.snd

/-- JavaScript object spread of two objects: keys of the base keep their
position but take the value from the extra object on collision; keys of the
extra object absent from the base are appended in order. -/
def objSpread (base extra : Headers) : Headers :=
  base.map (fun p =>
    match extra.find? (fun q => q.1 == p.1) with
    | some q => (p.1, q.2)
    | none => p) ++
  extra.filter (fun q => !(base.any (fun p => p.1 == q.1)))

/-- Query parameter bag attached to a configuration, an opaque pass-through
value from the perspective of the pipeline. -/
abbrev QueryParams := List (String × String)

/-- ResponseMode enumeration from the source: data returns only the decoded
body, full returns the whole response envelope. -/
inductive ResponseMode where
  | data
  | full
deriving DecidableEq, Repr

/-- RequestContext interface: optional bearer token, scopes and request id. -/
structure RequestContext where
  token : Option String := none
  scopes : Option (List String) := none
  requestId : Option String := none
deriving DecidableEq, Repr

/-- RestRequestOption interface, with the optional responseMode member added
by the intersection type used by the verb methods. -/
structure RestRequestOption where
  params : Option QueryParams := none
  headers : Option Headers := none
  timeoutMs : Option Nat := none
  context : Option RequestContext := none
  responseMode : Option ResponseMode := none
deriving DecidableEq, Repr

/-- An error code is a string or a number in the source type. -/
inductive ErrCode where
  | str (s : String)
  | num (n : Int)
deriving DecidableEq, Repr

/-- UpstreamErrorBody interface: message, code and details, all optional.
The details member has type unknown in the source; it is modelled here as an
optional string, a pure pass-through value. -/
structure UpstreamErrorBody where
  message : Option String := none
  code : Option ErrCode := none
  details : Option String := none
deriving DecidableEq, Repr

/-- The response attached to an AxiosError: an HTTP status and an optional
decoded upstream error body. -/
structure AxiosErrorResponse where
  status : Nat
  data : Option UpstreamErrorBody := none
deriving DecidableEq, Repr

/-- An AxiosError as read by the pipeline and the default error mapper: an
optional message and an optional response. A thrown value with no response
member is modelled with response set to none. -/
structure AxiosError where
  message : Option String := none
  response : Option AxiosErrorResponse := none
deriving DecidableEq, Repr

/-- AxiosRequestConfig, restricted to the members the pipeline reads or
writes. The request body has type unknown in the source and is modelled as
an optional string. All members are optional as in the source type. -/
structure AxiosRequestConfig where
  headers : Option Headers := none
  params : Option QueryParams := none
  timeout : Option Nat := none
  method : Option String := none
  url : Option String := none
  data : Option String := none
deriving DecidableEq, Repr

/-- AxiosResponse envelope: status, headers and decoded body. -/
structure AxiosResponse (T : Type) where
  status : Nat
  headers : Headers := []
  data : T
deriving DecidableEq, Repr

/-- Payload of the HttpException raised by the default error mapper. -/
structure ErrorPayload where
  message : String
  code : ErrCode
  details : Option String
deriving DecidableEq, Repr

/-- HttpException carrying a payload and an HTTP status. -/
structure HttpException where
  payload : ErrorPayload
  status : Nat
deriving DecidableEq, Repr

/-- The three abstract extension points of AbstractRestTemplate, collected
as a record of strategies. applyAuth may throw, modelled by Except; a raised
value is read by the pipeline through the AxiosError shape. mapAndThrowError
must throw, modelled by returning the exception that is raised. -/
structure RestTemplate where
  getDefaultHeaders : Headers
  applyAuth : AxiosRequestConfig → Option RequestContext → Except AxiosError AxiosRequestConfig
  mapAndThrowError : AxiosError → HttpException

/-- The transport collaborator (http.axiosRef.request): given the index of
the dispatch attempt and the final configuration, either a response envelope
or a thrown AxiosError. The attempt index makes the sequence of dispatches
of one logical call observable. -/
abbrev Transport (T : Type) := Nat → AxiosRequestConfig → Except AxiosError (AxiosResponse T)

/-- Result of the shared request routine: either only the decoded body or
the full response envelope. -/
inductive ReqResult (T : Type) where
  | data (body : T)
  | full (resp : AxiosResponse T)
deriving DecidableEq, Repr

/-- buildBaseConfig of AbstractRestTemplate (retry-capable file): merges the
default headers with the per-call headers by object spread, attaches the
per-call query params, and resolves the timeout to the per-call value or the
10000 ms default. Method, url and body are not set here. -/
def AbstractRestTemplate.buildBaseConfig (t : RestTemplate)
    (options : Option RestRequestOption) : AxiosRequestConfig :=
  let mergedHeaders := objSpread t.getDefaultHeaders ((options.bind (·.headers)).getD [])
  { headers := some mergedHeaders
    params := options.bind (·.params)
    timeout := some ((options.bind (·.timeoutMs)).getD 10000) }

/-- Finalization step of the shared routine: spread of the authenticated
configuration followed by the method, url and data members. -/
def AbstractRestTemplate.finalizeConfig (withAuth : AxiosRequestConfig)
    (method url : String) (body : Option String) : AxiosRequestConfig :=
  { withAuth with method := some method, url := some url, data := body }

/-- One pass through steps 1 to 5 of the shared routine of the retry-capable
variant (the body of its try block): build the base configuration, invoke
applyAuth, finalize with method, url and body, dispatch via the transport,
and on success select the body or the envelope from the responseMode. The
second component counts the transport dispatches made during the pass (0 if
applyAuth threw, otherwise 1). -/
def AbstractRestTemplate.attemptOnce {T : Type} (t : RestTemplate)
    (transport : Transport T) (method url : String) (body : Option String)
    (options : Option RestRequestOption) (attempt : Nat) :
    Except AxiosError (ReqResult T) × Nat :=
  let baseCfg := AbstractRestTemplate.buildBaseConfig t options
  match t.applyAuth baseCfg (options.bind (·.context)) with
  | Except.error e => (Except.error e, 0)
  | Except.ok withAuth =>
    let finalCfg := AbstractRestTemplate.finalizeConfig withAuth method url body
    match transport attempt finalCfg with
    | Except.error e => (Except.error e, 1)
    | Except.ok resp =>
      if (options.bind (·.responseMode)).getD ResponseMode.data = ResponseMode.full then
        (Except.ok (ReqResult.full resp), 1)
      else
        (Except.ok (ReqResult.data resp.data), 1)

/-- The shared request routine of the retry-capable variant. On a captured
failure the source tests status 401 and a positive retry budget in a single
conjunction; here the budget is matched first and the status tested inside,
which decides the same condition. The attempt argument is the index of the
next transport dispatch; the second component of the result is the total
number of dispatches made from index 0, so a call starting at attempt 0
returns the number of transport attempts of the whole routine. -/
def AbstractRestTemplate.request {T : Type} (t : RestTemplate)
    (transport : Transport T) (method url : String) (body : Option String)
    (options : Option RestRequestOption) :
    Nat → Nat → Except HttpException (ReqResult T) × Nat
  | maxRetryAttempts, attempt =>
    match AbstractRestTemplate.attemptOnce t transport method url body options attempt with
    | (Except.ok r, used) => (Except.ok r, attempt + used)
    | (Except.error e, used) =>
      match maxRetryAttempts with
      | Nat.succ m =>
        if e.response.map AxiosErrorResponse.status = some 401 then
          AbstractRestTemplate.request t transport method url body options m (attempt + used)
        else
          (Except.error (t.mapAndThrowError e), attempt + used)
      | 0 => (Except.error (t.mapAndThrowError e), attempt + used)

/-- GET verb of the retry-capable variant: forwards to the shared routine
with no body and without a retry budget argument, so the budget defaults to
0, and dispatching starts at attempt index 0. -/
def AbstractRestTemplate.get {T : Type} (t : RestTemplate) (transport : Transport T)
    (url : String) (options : Option RestRequestOption) :
    Except HttpException (ReqResult T) × Nat :=
  AbstractRestTemplate.request t transport "GET" url none options 0 0

/-- POST verb of the retry-capable variant. -/
def AbstractRestTemplate.post {T : Type} (t : RestTemplate) (transport : Transport T)
    (url : String) (body : Option String) (options : Option RestRequestOption) :
    Except HttpException (ReqResult T) × Nat :=
  AbstractRestTemplate.request t transport "POST" url body options 0 0

/-- PUT verb of the retry-capable variant. -/
def AbstractRestTemplate.put {T : Type} (t : RestTemplate) (transport : Transport T)
    (url : String) (body : Option String) (options : Option RestRequestOption) :
    Except HttpException (ReqResult T) × Nat :=
  AbstractRestTemplate.request t transport "PUT" url body options 0 0

/-- PATCH verb of the retry-capable variant. -/
def AbstractRestTemplate.patch {T : Type} (t : RestTemplate) (transport : Transport T)
    (url : String) (body : Option String) (options : Option RestRequestOption) :
    Except HttpException (ReqResult T) × Nat :=
  AbstractRestTemplate.request t transport "PATCH" url body options 0 0

/-- DELETE verb of the retry-capable variant. -/
def AbstractRestTemplate.delete {T : Type} (t : RestTemplate) (transport : Transport T)
    (url : String) (options : Option RestRequestOption) :
    Except HttpException (ReqResult T) × Nat :=
  AbstractRestTemplate.request t transport "DELETE" url none options 0 0

/-- buildBaseConfig of the duplicated AbstractRestTemplate class in the
unnamed source file (the variant without retry); its body is textually
identical to the retry-capable one. -/
def AbstractRestTemplateAlt.buildBaseConfig (t : RestTemplate)
    (options : Option RestRequestOption) : AxiosRequestConfig :=
  let mergedHeaders := objSpread t.getDefaultHeaders ((options.bind (·.headers)).getD [])
  { headers := some mergedHeaders
    params := options.bind (·.params)
    timeout := some ((options.bind (·.timeoutMs)).getD 10000) }

/-- The shared request routine of the variant without retry: identical steps
1 to 5, and every captured failure goes to mapAndThrowError at once. The
attempt argument and the dispatch count have the same reading as in the
retry-capable variant. -/
def AbstractRestTemplateAlt.request {T : Type} (t : RestTemplate)
    (transport : Transport T) (method url : String) (body : Option String)
    (options : Option RestRequestOption) (attempt : Nat) :
    Except HttpException (ReqResult T) × Nat :=
  let baseCfg := AbstractRestTemplateAlt.buildBaseConfig t options
  match t.applyAuth baseCfg (options.bind (·.context)) with
  | Except.error e => (Except.error (t.mapAndThrowError e), attempt)
  | Except.ok withAuth =>
    let finalCfg : AxiosRequestConfig :=
      { withAuth with method := some method, url := some url, data := body }
    match transport attempt finalCfg with
    | Except.error e => (Except.error (t.mapAndThrowError e), attempt + 1)
    | Except.ok resp =>
      if (options.bind (·.responseMode)).getD ResponseMode.data = ResponseMode.full then
        (Except.ok (ReqResult.full resp), attempt + 1)
      else
        (Except.ok (ReqResult.data resp.data), attempt + 1)

/-- Default headers of RestTemplateService. -/
def RestTemplateService.getDefaultHeaders : Headers :=
  [("Accept", "application/json"), ("Content-Type", "application/json")]

/-- applyAuth of RestTemplateService: when the context token is falsy (the
context or the token is absent, or the token is the empty string) the input
configuration itself is returned; otherwise a new configuration is built by
spreading the input and replacing its headers with a copy of the existing
headers extended by the Authorization bearer header. -/
def RestTemplateService.applyAuth (config : AxiosRequestConfig)
    (context : Option RequestContext) : AxiosRequestConfig :=
  match context.bind (·.token) with
  | none => config
  | some token =>
    if token = "" then config
    else
      let baseHeaders := objSpread [] (config.headers.getD [])
      { config with
        headers := some (objSpread baseHeaders [("Authorization", "Bearer " ++ token)]) }

/-- mapAndThrowError of RestTemplateService: status from the response if
present else 502 (BAD_GATEWAY), message from the upstream body else the
error message else a generic text, code from the upstream body else the
UPSTREAM_ERROR sentinel, details passed through; the built HttpException is
thrown, modelled by returning it. -/
def RestTemplateService.mapAndThrowError (error : AxiosError) : HttpException :=
  let status := (error.response.map (·.status)).getD 502
  let message := ((error.response.bind (·.data)).bind (·.message)).getD
    ((error.message).getD "Upstream request failed")
  let payload : ErrorPayload :=
    { message := message
      code := ((error.response.bind (·.data)).bind (·.code)).getD (ErrCode.str "UPSTREAM_ERROR")
      details := (error.response.bind (·.data)).bind (·.details) }
  { payload := payload, status := status }

/-- The RestTemplateService as a strategy record: its applyAuth never
throws. -/
def RestTemplateService.template : RestTemplate :=
  { getDefaultHeaders := RestTemplateService.getDefaultHeaders
    applyAuth := fun config context => Except.ok (RestTemplateService.applyAuth config context)
    mapAndThrowError := RestTemplateService.mapAndThrowError }

/-- Primitive query values accepted by buildUrl: string, number or boolean.
Numbers are modelled as integers; String(v) is their decimal form. -/
inductive QueryValue where
  | str (s : String)
  | num (n : Int)
  | bool (b : Bool)
deriving DecidableEq, Repr

/-- The String(v) coercion applied by buildUrl to each query value. -/
def qvToString : QueryValue → String
  | QueryValue.str s => s
  | QueryValue.num n => toString n
  | QueryValue.bool b => if b then "true" else "false"

/-- UTF-8 encoding of one code point as a list of byte values. -/
def utf8EncodeCharNat (c : Nat) : List Nat :=
  if c < 128 then [c]
  else if c < 2048 then [192 + c / 64, 128 + c % 64]
  else if c < 65536 then [224 + c / 4096, 128 + (c / 64) % 64, 128 + c % 64]
  else [240 + c / 262144, 128 + (c / 4096) % 64, 128 + (c / 64) % 64, 128 + c % 64]

/-- UTF-8 byte sequence of a string. -/
def utf8Bytes (s : String) : List Nat :=
  s.data.foldr (fun c acc => utf8EncodeCharNat c.toNat ++ acc) []

/-- Uppercase hexadecimal digit. -/
def hexDigit (n : Nat) : Char :=
  if n < 10 then Char.ofNat (48 + n) else Char.ofNat (55 + n)

/-- Bytes that application/x-www-form-urlencoded serialization leaves
unescaped: ASCII alphanumerics and the asterisk, hyphen, period and
underscore. -/
def formSafeByte (b : Nat) : Bool :=
  (48 ≤ b && b ≤ 57) || (65 ≤ b && b ≤ 90) || (97 ≤ b && b ≤ 122) ||
    b == 42 || b == 45 || b == 46 || b == 95

/-- Serialization of one byte: space becomes a plus sign, safe bytes stand
for themselves, every other byte is percent-escaped in uppercase hex. -/
def encodeByte (b : Nat) : String :=
  if b == 32 then "+"
  else if formSafeByte b then String.singleton (Char.ofNat b)
  else "%" ++ String.singleton (hexDigit (b / 16)) ++ String.singleton (hexDigit (b % 16))

/-- URLSearchParams percent-encoding of one string. -/
def formEncode (s : String) : String :=
  String.join ((utf8Bytes s).map encodeByte)

/-- URLSearchParams serialization of the appended entries, in insertion
order, joined by ampersands. -/
def uspToString (entries : List (String × QueryValue)) : String :=
  String.intercalate "&" (entries.map (fun p => formEncode p.1 ++ "=" ++ formEncode (qvToString p.2)))

/-- buildUrl from rest-template.util.ts: with no params (absent mapping or
no keys) the url is returned verbatim; otherwise the serialized query
string is appended after an ampersand when the url already contains a
question mark and after a question mark otherwise. -/
def buildUrl (url : String) (params : Option (List (String × QueryValue))) : String :=
  match params with
  | none => url
  | some ps =>
    if ps.isEmpty then url
    else
      let hasQuery := url.data.contains '?'
      url ++ (if hasQuery then "&" else "?") ++ uspToString ps

/-- A thrown transport error carrying HTTP status 401 and no body. -/
def err401 : AxiosError := { response := some { status := 401 } }

/-- A transport that rejects every dispatch with the 401 error. -/
def transport401 : Transport Nat := fun _ _ => Except.error err401

/-- A sample upstream failure mirroring the repository test: status 401 with
a structured body. -/
def errUpstream : AxiosError :=
  { message := some "Request failed with status code 401"
    response := some
      { status := 401
        data := some
          { message := some "Unauthorized"
            code := some (ErrCode.str "INVALID_TOKEN")
            details := some "token expired" } } }

/-- A sample configuration mirroring the repository test. -/
def cfgTrace : AxiosRequestConfig :=
  { headers := some [("X-Trace", "trace-123")], timeout := some 5000 }

/-- A sample successful response envelope. -/
def respOk : AxiosResponse Nat :=
  { status := 200, headers := [("x-rate-limit", "10")], data := 7 }

/-- A transport that resolves every dispatch with the sample response. -/
def transportOk : Transport Nat := fun _ _ => Except.ok respOk

/-- A transport that rejects the first dispatch with the 401 error and
resolves every later dispatch with the sample response. -/
def transport401ThenOk : Transport Nat := fun attempt _ =>
  if attempt = 0 then Except.error err401 else Except.ok respOk

theorem hGet_nil (k : String) : hGet [] k = none := rfl

theorem find?_map_subst (extra : Headers) (k : String) (base : Headers) :
    (base.map (fun p =>
      match extra.find? (fun q => q.1 == p.1) with
      | some q => (p.1, q.2)
      | none => p)).find? (fun x => x.1 == k) =
    match extra.find? (fun q => q.1 == k) with
    | some q => (base.find? (fun x => x.1 == k)).map (fun x => (x.1, q.2))
    | none => base.find? (fun x => x.1 == k) := by
  induction base with
  | nil =>
    cases extra.find? (fun q => q.1 == k) <;> rfl
  | cons p rest ih =>
    simp only [List.map_cons]
    cases hq : extra.find? (fun q => q.1 == p.1) with
    | some q =>
      cases hpk : (p.1 == k) with
      | true =>
        have hk : p.1 = k := eq_of_beq hpk
        rw [hk] at hq
        rw [hq]
        simp [List.find?_cons, hpk]
      | false =>
        rw [List.find?_cons_of_neg _ (by simp [hpk]), ih]
        cases hqk : extra.find? (fun q => q.1 == k) <;>
          rw [List.find?_cons_of_neg _ (by simp [hpk])]
    | none =>
      cases hpk : (p.1 == k) with
      | true =>
        have hk : p.1 = k := eq_of_beq hpk
        rw [hk] at hq
        rw [hq]
        simp [List.find?_cons, hpk]
      | false =>
        rw [List.find?_cons_of_neg _ (by simp [hpk]), ih]
        cases hqk : extra.find? (fun q => q.1 == k) <;>
          rw [List.find?_cons_of_neg _ (by simp [hpk])]

theorem find?_filter_keep (base : Headers) (k : String) (extra : Headers) :
    (extra.filter (fun q => !(base.any (fun p => p.1 == q.1)))).find? (fun x => x.1 == k) =
    if base.any (fun p => p.1 == k) then none
    else extra.find? (fun x => x.1 == k) := by
  induction extra with
  | nil => simp
  | cons q rest ih =>
    rw [List.filter_cons]
    by_cases hqk : q.1 = k
    · rcases Bool.eq_false_or_eq_true (base.any (fun p => p.1 == q.1)) with hkeep | hkeep <;>
        rw [hqk] at hkeep <;>
        simp [hkeep, hqk, ih]
    · rcases Bool.eq_false_or_eq_true (base.any (fun p => p.1 == q.1)) with hkeep | hkeep <;>
        simp [hkeep, hqk, ih]

theorem hGet_objSpread (base extra : Headers) (k : String) :
    hGet (objSpread base extra) k =
    match hGet extra k with
    | some v => some v
    | none => hGet base k := by
  unfold hGet objSpread
  rw [List.find?_append, find?_map_subst, find?_filter_keep]
  cases hq : extra.find? (fun x => x.1 == k) with
  | none => simp [hq]
  | some q =>
    cases hb : base.find? (fun x => x.1 == k) with
    | some x => simp [hq, hb]
    | none =>
      have hany : base.any (fun p => p.1 == k) = false := by
        rw [List.any_eq_false]
        intro x hx
        have := List.find?_eq_none.mp hb x hx
        simpa using this
      simp [hq, hb, hany]

theorem hGet_objSpread_of_some (base extra : Headers) (k : String) (v : String)
    (h : hGet extra k = some v) : hGet (objSpread base extra) k = some v := by
  rw [hGet_objSpread, h]

theorem hGet_objSpread_of_none (base extra : Headers) (k : String)
    (h : hGet extra k = none) : hGet (objSpread base extra) k = hGet base k := by
  rw [hGet_objSpread, h]

theorem objSpread_nil_left (extra : Headers) : objSpread [] extra = extra := by
  simp [objSpread]

/-- C3: for every configuration and every context carrying no token (the
context absent or its token member unset), applyAuth of the default template
returns its input configuration; in the source the very same object
reference is returned with no new allocation, which the value embedding
renders as the function returning its argument. -/
theorem claim_C3_applyAuth_identity (config : AxiosRequestConfig)
    (context : Option RequestContext)
    (h : context.bind (·.token) = none) :
    RestTemplateService.applyAuth config context = config := by
  unfold RestTemplateService.applyAuth
  rw [h]

theorem claim_C3_witness :
    RestTemplateService.applyAuth cfgTrace (some { token := none }) = cfgTrace :=
  claim_C3_applyAuth_identity cfgTrace (some { token := none }) rfl

/-- C4 counterexample: with the token set to the empty string the source
takes the falsy branch and returns the configuration unchanged, so no
Authorization header is attached, contradicting the claim for a context
whose token member is set. -/
theorem claim_C4_counterexample :
    ¬ (hGet ((RestTemplateService.applyAuth { headers := some [] }
        (some { token := some "" })).headers.getD []) "Authorization"
      = some ("Bearer " ++ "")) := by
  decide

/-- C4 (amended): for every configuration and every context whose token is
set to a nonempty string, applyAuth of the default template returns a
configuration whose headers give every key other than Authorization the
value it had in the input headers, give Authorization the value Bearer
followed by the token, and whose remaining members equal those of the
input configuration. -/
theorem claim_C4_applyAuth_with_token (config : AxiosRequestConfig)
    (context : Option RequestContext) (token : String)
    (htok : context.bind (·.token) = some token) (hne : token ≠ "") :
    (∀ k, k ≠ "Authorization" →
      hGet ((RestTemplateService.applyAuth config context).headers.getD []) k
        = hGet (config.headers.getD []) k)
    ∧ hGet ((RestTemplateService.applyAuth config context).headers.getD []) "Authorization"
        = some ("Bearer " ++ token)
    ∧ (RestTemplateService.applyAuth config context).params = config.params
    ∧ (RestTemplateService.applyAuth config context).timeout = config.timeout
    ∧ (RestTemplateService.applyAuth config context).method = config.method
    ∧ (RestTemplateService.applyAuth config context).url = config.url
    ∧ (RestTemplateService.applyAuth config context).data = config.data := by
  have hres : RestTemplateService.applyAuth config context =
      { config with headers := some (objSpread (objSpread [] (config.headers.getD []))
        [("Authorization", "Bearer " ++ token)]) } := by
    unfold RestTemplateService.applyAuth
    rw [htok]
    simp [hne]
  rw [hres]
  refine ⟨?_, ?_, rfl, rfl, rfl, rfl, rfl⟩
  · intro k hk
    show hGet (objSpread (objSpread [] (config.headers.getD []))
      [("Authorization", "Bearer " ++ token)]) k = _
    rw [objSpread_nil_left]
    apply hGet_objSpread_of_none
    have hne2 : ¬ (("Authorization" : String) = k) := fun hc => hk hc.symm
    simp [hGet, hne2]
  · show hGet (objSpread (objSpread [] (config.headers.getD []))
      [("Authorization", "Bearer " ++ token)]) "Authorization" = _
    rw [objSpread_nil_left]
    apply hGet_objSpread_of_some
    simp [hGet]

theorem claim_C4_witness :
    (∀ k, k ≠ "Authorization" →
      hGet ((RestTemplateService.applyAuth cfgTrace
          (some { token := some "access-token" })).headers.getD []) k
        = hGet (cfgTrace.headers.getD []) k)
    ∧ hGet ((RestTemplateService.applyAuth cfgTrace
        (some { token := some "access-token" })).headers.getD []) "Authorization"
        = some ("Bearer " ++ "access-token")
    ∧ (RestTemplateService.applyAuth cfgTrace (some { token := some "access-token" })).params
        = cfgTrace.params
    ∧ (RestTemplateService.applyAuth cfgTrace (some { token := some "access-token" })).timeout
        = cfgTrace.timeout
    ∧ (RestTemplateService.applyAuth cfgTrace (some { token := some "access-token" })).method
        = cfgTrace.method
    ∧ (RestTemplateService.applyAuth cfgTrace (some { token := some "access-token" })).url
        = cfgTrace.url
    ∧ (RestTemplateService.applyAuth cfgTrace (some { token := some "access-token" })).data
        = cfgTrace.data :=
  claim_C4_applyAuth_with_token cfgTrace (some { token := some "access-token" })
    "access-token" rfl (by decide)

/-- C5: buildBaseConfig merges the default headers with the per-call headers
so that a per-call header wins on key collision and a default header
survives otherwise, attaches the per-call query params, and resolves the
timeout to the per-call value when supplied and to 10000 ms otherwise. -/
theorem claim_C5_buildBaseConfig (t : RestTemplate) (options : Option RestRequestOption) :
    (∀ k v, hGet ((options.bind (·.headers)).getD []) k = some v →
      hGet ((AbstractRestTemplate.buildBaseConfig t options).headers.getD []) k = some v)
    ∧ (∀ k, hGet ((options.bind (·.headers)).getD []) k = none →
      hGet ((AbstractRestTemplate.buildBaseConfig t options).headers.getD []) k
        = hGet t.getDefaultHeaders k)
    ∧ (AbstractRestTemplate.buildBaseConfig t options).params = options.bind (·.params)
    ∧ (AbstractRestTemplate.buildBaseConfig t options).timeout
        = some ((options.bind (·.timeoutMs)).getD 10000) := by
  refine ⟨?_, ?_, rfl, rfl⟩
  · intro k v h
    show hGet (objSpread t.getDefaultHeaders ((options.bind (·.headers)).getD [])) k = some v
    exact hGet_objSpread_of_some _ _ _ _ h
  · intro k h
    show hGet (objSpread t.getDefaultHeaders ((options.bind (·.headers)).getD [])) k = _
    exact hGet_objSpread_of_none _ _ _ h

theorem claim_C5_witness :
    hGet ((AbstractRestTemplate.buildBaseConfig RestTemplateService.template
        (some { headers := some [("Accept", "text/plain")] })).headers.getD []) "Accept"
      = some "text/plain"
    ∧ hGet ((AbstractRestTemplate.buildBaseConfig RestTemplateService.template
        (some { headers := some [("Accept", "text/plain")] })).headers.getD []) "Content-Type"
      = some "application/json" :=
  ⟨(claim_C5_buildBaseConfig RestTemplateService.template
      (some { headers := some [("Accept", "text/plain")] })).1 "Accept" "text/plain" rfl,
   (claim_C5_buildBaseConfig RestTemplateService.template
      (some { headers := some [("Accept", "text/plain")] })).2.1 "Content-Type" rfl⟩

/-- C2: the default mapAndThrowError builds an HttpException whose status is
the response status when a response is present and 502 otherwise, whose
payload message comes from the upstream body falling back to the error
message member, whose payload code comes from the upstream body falling back
to the UPSTREAM_ERROR sentinel, and whose details are passed through from
the upstream body; the exception is thrown, which the embedding models by
returning it, so the function has no ordinary return value. -/
theorem claim_C2_mapAndThrowError (e : AxiosError) :
    (∀ r, e.response = some r → (RestTemplateService.mapAndThrowError e).status = r.status)
    ∧ (e.response = none → (RestTemplateService.mapAndThrowError e).status = 502)
    ∧ (∀ m, (e.response.bind (·.data)).bind (·.message) = some m →
        (RestTemplateService.mapAndThrowError e).payload.message = m)
    ∧ ((e.response.bind (·.data)).bind (·.message) = none →
        ∀ m, e.message = some m → (RestTemplateService.mapAndThrowError e).payload.message = m)
    ∧ (∀ c, (e.response.bind (·.data)).bind (·.code) = some c →
        (RestTemplateService.mapAndThrowError e).payload.code = c)
    ∧ ((e.response.bind (·.data)).bind (·.code) = none →
        (RestTemplateService.mapAndThrowError e).payload.code = ErrCode.str "UPSTREAM_ERROR")
    ∧ (RestTemplateService.mapAndThrowError e).payload.details
        = (e.response.bind (·.data)).bind (·.details) := by
  unfold RestTemplateService.mapAndThrowError
  refine ⟨?_, ?_, ?_, ?_, ?_, ?_, rfl⟩
  · intro r hr
    simp [hr]
  · intro hr
    simp [hr]
  · intro m hm
    simp [hm]
  · intro hm m hmsg
    simp [hm, hmsg]
  · intro c hc
    simp [hc]
  · intro hc
    simp [hc]

theorem claim_C2_witness :
    (RestTemplateService.mapAndThrowError errUpstream).status = 401
    ∧ (RestTemplateService.mapAndThrowError errUpstream).payload.message = "Unauthorized"
    ∧ (RestTemplateService.mapAndThrowError errUpstream).payload.code
        = ErrCode.str "INVALID_TOKEN" :=
  ⟨(claim_C2_mapAndThrowError errUpstream).1 _ rfl,
   (claim_C2_mapAndThrowError errUpstream).2.2.1 _ rfl,
   (claim_C2_mapAndThrowError errUpstream).2.2.2.2.1 _ rfl⟩

/-- C8: buildUrl returns the url verbatim when the mapping is absent or has
no keys, and otherwise appends the url-encoded serialization of all pairs,
separated by an ampersand when the url already contains a question mark and
by a question mark otherwise; the conjunction closes with the two concrete
examples of the specification. -/
theorem claim_C8_buildUrl (url : String) (ps : List (String × QueryValue)) (hne : ps ≠ []) :
    buildUrl url none = url
    ∧ buildUrl url (some []) = url
    ∧ buildUrl url (some ps)
        = url ++ (if url.data.contains '?' then "&" else "?") ++ uspToString ps
    ∧ buildUrl "https://x/y?z=1" (some [("a", QueryValue.str "q")]) = "https://x/y?z=1&a=q"
    ∧ buildUrl "https://x/y" (some [("a", QueryValue.num 1), ("b", QueryValue.bool true)])
        = "https://x/y?a=1&b=true" := by
  refine ⟨rfl, rfl, ?_, by decide, by decide⟩
  have hempty : ps.isEmpty = false := by
    cases ps with
    | nil => exact absurd rfl hne
    | cons a l => rfl
  simp [buildUrl, hempty]

theorem claim_C8_witness :
    buildUrl "https://x/y" (some [("a", QueryValue.str "q")])
      = "https://x/y" ++ "?" ++ uspToString [("a", QueryValue.str "q")] :=
  (claim_C8_buildUrl "https://x/y" [("a", QueryValue.str "q")] (by decide)).2.2.1

/-- C7: in both variants the base configuration handed to applyAuth carries
no method, no url and no body, and the finalization applied to the
configuration returned by applyAuth, immediately before the transport
dispatch, attaches exactly the method, the url and the body while leaving
every other member unchanged. -/
theorem claim_C7_method_url_body_late (t : RestTemplate)
    (options : Option RestRequestOption) (withAuth : AxiosRequestConfig)
    (method url : String) (body : Option String) :
    (AbstractRestTemplate.buildBaseConfig t options).method = none
    ∧ (AbstractRestTemplate.buildBaseConfig t options).url = none
    ∧ (AbstractRestTemplate.buildBaseConfig t options).data = none
    ∧ (AbstractRestTemplateAlt.buildBaseConfig t options).method = none
    ∧ (AbstractRestTemplateAlt.buildBaseConfig t options).url = none
    ∧ (AbstractRestTemplateAlt.buildBaseConfig t options).data = none
    ∧ (AbstractRestTemplate.finalizeConfig withAuth method url body).method = some method
    ∧ (AbstractRestTemplate.finalizeConfig withAuth method url body).url = some url
    ∧ (AbstractRestTemplate.finalizeConfig withAuth method url body).data = body
    ∧ (AbstractRestTemplate.finalizeConfig withAuth method url body).headers = withAuth.headers
    ∧ (AbstractRestTemplate.finalizeConfig withAuth method url body).params = withAuth.params
    ∧ (AbstractRestTemplate.finalizeConfig withAuth method url body).timeout = withAuth.timeout :=
  ⟨rfl, rfl, rfl, rfl, rfl, rfl, rfl, rfl, rfl, rfl, rfl, rfl⟩

theorem request_unfold {T : Type} (t : RestTemplate) (transport : Transport T)
    (method url : String) (body : Option String) (options : Option RestRequestOption)
    (maxRetryAttempts attempt : Nat) :
    AbstractRestTemplate.request t transport method url body options maxRetryAttempts attempt =
    match AbstractRestTemplate.attemptOnce t transport method url body options attempt with
    | (Except.ok r, used) => (Except.ok r, attempt + used)
    | (Except.error e, used) =>
      match maxRetryAttempts with
      | Nat.succ m =>
        if e.response.map AxiosErrorResponse.status = some 401 then
          AbstractRestTemplate.request t transport method url body options m (attempt + used)
        else (Except.error (t.mapAndThrowError e), attempt + used)
      | 0 => (Except.error (t.mapAndThrowError e), attempt + used) := by
  rw [AbstractRestTemplate.request.eq_def]

theorem request_attempt_ok {T : Type} (t : RestTemplate) (transport : Transport T)
    (method url : String) (body : Option String) (options : Option RestRequestOption)
    (budget attempt : Nat) (r : ReqResult T) (used : Nat)
    (hao : AbstractRestTemplate.attemptOnce t transport method url body options attempt
      = (Except.ok r, used)) :
    AbstractRestTemplate.request t transport method url body options budget attempt
      = (Except.ok r, attempt + used) := by
  rw [request_unfold, hao]

theorem request_attempt_error_stop {T : Type} (t : RestTemplate) (transport : Transport T)
    (method url : String) (body : Option String) (options : Option RestRequestOption)
    (budget attempt : Nat) (e : AxiosError) (used : Nat)
    (hao : AbstractRestTemplate.attemptOnce t transport method url body options attempt
      = (Except.error e, used))
    (hneg : ¬(e.response.map AxiosErrorResponse.status = some 401 ∧ 0 < budget)) :
    AbstractRestTemplate.request t transport method url body options budget attempt
      = (Except.error (t.mapAndThrowError e), attempt + used) := by
  rw [request_unfold, hao]
  cases budget with
  | zero => rfl
  | succ m =>
    have h401 : ¬(e.response.map AxiosErrorResponse.status = some 401) :=
      fun hc => hneg ⟨hc, Nat.succ_pos m⟩
    simp [h401]

theorem request_attempt_error_retry {T : Type} (t : RestTemplate) (transport : Transport T)
    (method url : String) (body : Option String) (options : Option RestRequestOption)
    (budget attempt : Nat) (e : AxiosError) (used : Nat)
    (hao : AbstractRestTemplate.attemptOnce t transport method url body options attempt
      = (Except.error e, used))
    (h401 : e.response.map AxiosErrorResponse.status = some 401)
    (hpos : 0 < budget) :
    AbstractRestTemplate.request t transport method url body options budget attempt
      = AbstractRestTemplate.request t transport method url body options (budget - 1)
          (attempt + used) := by
  rw [request_unfold, hao]
  cases budget with
  | zero => exact absurd hpos (by omega)
  | succ m => simp [h401]

/-- C6: on a successful transport dispatch the shared routine resolves to
the full response envelope when responseMode is full and to the decoded body
when responseMode is data or unset, in particular when options are absent
entirely; stated for the shared routine with budget 0 and starting attempt
0, which is exactly what every public verb method invokes. -/
theorem claim_C6_success_response_mode {T : Type} (t : RestTemplate)
    (transport : Transport T) (method url : String) (body : Option String)
    (options : Option RestRequestOption) (withAuth : AxiosRequestConfig)
    (resp : AxiosResponse T)
    (hauth : t.applyAuth (AbstractRestTemplate.buildBaseConfig t options)
        (options.bind (·.context)) = Except.ok withAuth)
    (hdisp : transport 0 (AbstractRestTemplate.finalizeConfig withAuth method url body)
        = Except.ok resp) :
    AbstractRestTemplate.request t transport method url body options 0 0
      = (Except.ok (if (options.bind (·.responseMode)).getD ResponseMode.data = ResponseMode.full
          then ReqResult.full resp else ReqResult.data resp.data), 1)
    ∧ (options = none →
        AbstractRestTemplate.request t transport method url body options 0 0
          = (Except.ok (ReqResult.data resp.data), 1)) := by
  have hao : AbstractRestTemplate.attemptOnce t transport method url body options 0
      = (Except.ok (if (options.bind (·.responseMode)).getD ResponseMode.data = ResponseMode.full
          then ReqResult.full resp else ReqResult.data resp.data), 1) := by
    by_cases hm : (options.bind (·.responseMode)).getD ResponseMode.data = ResponseMode.full
    · simp only [AbstractRestTemplate.attemptOnce, hauth, hdisp, if_pos hm]
    · simp only [AbstractRestTemplate.attemptOnce, hauth, hdisp, if_neg hm]
  constructor
  · exact request_attempt_ok t transport method url body options 0 0 _ 1 hao
  · intro ho
    subst ho
    exact request_attempt_ok t transport method url body none 0 0 _ 1 hao

theorem claim_C6_witness :
    AbstractRestTemplate.request RestTemplateService.template transportOk "GET" "https://x"
        none (some { responseMode := some ResponseMode.full }) 0 0
      = (Except.ok (ReqResult.full respOk), 1)
    ∧ AbstractRestTemplate.request RestTemplateService.template transportOk "GET" "https://x"
        none none 0 0
      = (Except.ok (ReqResult.data respOk.data), 1) :=
  ⟨(claim_C6_success_response_mode RestTemplateService.template transportOk "GET" "https://x"
      none (some { responseMode := some ResponseMode.full }) _ respOk rfl rfl).1,
   (claim_C6_success_response_mode RestTemplateService.template transportOk "GET" "https://x"
      none none _ respOk rfl rfl).2 rfl⟩

/-- C9: with a retry budget of 0 the request routine of the retry-capable
variant computes the same outcome, and makes the same transport dispatches,
as the request routine of the duplicated variant without retry, for every
strategy record, transport, method, url, body, options and starting attempt
index; on failure both call mapAndThrowError on the same captured error. -/
theorem claim_C9_variants_agree {T : Type} (t : RestTemplate) (transport : Transport T)
    (method url : String) (body : Option String) (options : Option RestRequestOption)
    (attempt : Nat) :
    AbstractRestTemplate.request t transport method url body options 0 attempt
      = AbstractRestTemplateAlt.request t transport method url body options attempt := by
  rw [request_unfold]
  simp only [AbstractRestTemplate.attemptOnce, AbstractRestTemplateAlt.request,
    AbstractRestTemplate.finalizeConfig]
  rw [show AbstractRestTemplateAlt.buildBaseConfig t options
      = AbstractRestTemplate.buildBaseConfig t options from rfl]
  cases hA : t.applyAuth (AbstractRestTemplate.buildBaseConfig t options)
      (options.bind (·.context)) with
  | error e => simp
  | ok wa =>
    cases hT : transport attempt
        ({ wa with method := some method, url := some url, data := body } : AxiosRequestConfig) with
    | error e => simp [hT]
    | ok resp =>
      by_cases hm : (options.bind (·.responseMode)).getD ResponseMode.data = ResponseMode.full
      · simp [hT, hm]
      · simp [hT, hm]

/-- C1: in the retry-capable routine every captured failure, from the auth
step or the transport dispatch, is handled in exactly one of two ways: with
status 401 and budget remaining the whole routine is re-run with the budget
decremented, and otherwise the call terminates with the exception built by
mapAndThrowError; a successful outcome after a captured failure is possible
only through such a retry; and with budget 1 and a first dispatch rejected
with status 401 exactly one additional dispatch, at index 1, is made and its
outcome decides the call, for a total of 2 transport attempts. -/
theorem claim_C1_retry_behaviour {T : Type} (t : RestTemplate) (transport : Transport T)
    (method url : String) (body : Option String) (options : Option RestRequestOption) :
    (∀ budget attempt e used,
      AbstractRestTemplate.attemptOnce t transport method url body options attempt
        = (Except.error e, used) →
      ((e.response.map AxiosErrorResponse.status = some 401 ∧ 0 < budget →
        AbstractRestTemplate.request t transport method url body options budget attempt
          = AbstractRestTemplate.request t transport method url body options (budget - 1)
              (attempt + used))
      ∧ (¬(e.response.map AxiosErrorResponse.status = some 401 ∧ 0 < budget) →
        AbstractRestTemplate.request t transport method url body options budget attempt
          = (Except.error (t.mapAndThrowError e), attempt + used))))
    ∧ (∀ budget attempt e used r n,
      AbstractRestTemplate.attemptOnce t transport method url body options attempt
        = (Except.error e, used) →
      AbstractRestTemplate.request t transport method url body options budget attempt
        = (Except.ok r, n) →
      e.response.map AxiosErrorResponse.status = some 401 ∧ 0 < budget)
    ∧ (∀ withAuth e1,
      t.applyAuth (AbstractRestTemplate.buildBaseConfig t options) (options.bind (·.context))
        = Except.ok withAuth →
      transport 0 (AbstractRestTemplate.finalizeConfig withAuth method url body)
        = Except.error e1 →
      e1.response.map AxiosErrorResponse.status = some 401 →
      AbstractRestTemplate.request t transport method url body options 1 0
        = (match transport 1 (AbstractRestTemplate.finalizeConfig withAuth method url body) with
          | Except.ok resp =>
            (Except.ok (if (options.bind (·.responseMode)).getD ResponseMode.data
                = ResponseMode.full
              then ReqResult.full resp else ReqResult.data resp.data), 2)
          | Except.error e2 => (Except.error (t.mapAndThrowError e2), 2))) := by
  refine ⟨?_, ?_, ?_⟩
  · intro budget attempt e used hao
    constructor
    · rintro ⟨h401, hpos⟩
      exact request_attempt_error_retry t transport method url body options budget attempt
        e used hao h401 hpos
    · intro hneg
      exact request_attempt_error_stop t transport method url body options budget attempt
        e used hao hneg
  · intro budget attempt e used r n hao hok
    by_cases hc : e.response.map AxiosErrorResponse.status = some 401 ∧ 0 < budget
    · exact hc
    · have hstop := request_attempt_error_stop t transport method url body options budget
        attempt e used hao hc
      rw [hstop] at hok
      exact absurd hok (by simp)
  · intro withAuth e1 hauth hdisp h401
    have hao0 : AbstractRestTemplate.attemptOnce t transport method url body options 0
        = (Except.error e1, 1) := by
      simp only [AbstractRestTemplate.attemptOnce, hauth, hdisp]
    have hstep : AbstractRestTemplate.request t transport method url body options 1 0
        = AbstractRestTemplate.request t transport method url body options 0 1 :=
      request_attempt_error_retry t transport method url body options 1 0 e1 1 hao0 h401
        (by omega)
    rw [hstep]
    cases hT : transport 1 (AbstractRestTemplate.finalizeConfig withAuth method url body) with
    | ok resp =>
      have hao1 : AbstractRestTemplate.attemptOnce t transport method url body options 1
          = (Except.ok (if (options.bind (·.responseMode)).getD ResponseMode.data
                = ResponseMode.full
              then ReqResult.full resp else ReqResult.data resp.data), 1) := by
        by_cases hm : (options.bind (·.responseMode)).getD ResponseMode.data = ResponseMode.full
        · simp only [AbstractRestTemplate.attemptOnce, hauth, hT, if_pos hm]
        · simp only [AbstractRestTemplate.attemptOnce, hauth, hT, if_neg hm]
      have hfin := request_attempt_ok t transport method url body options 0 1 _ 1 hao1
      rw [hfin]
    | error e2 =>
      have hao1 : AbstractRestTemplate.attemptOnce t transport method url body options 1
          = (Except.error e2, 1) := by
        simp only [AbstractRestTemplate.attemptOnce, hauth, hT]
      have hfin := request_attempt_error_stop t transport method url body options 0 1 e2 1 hao1
        (fun hc => absurd hc.2 (by omega))
      rw [hfin]

theorem claim_C1_witness :
    AbstractRestTemplate.request RestTemplateService.template transport401 "GET" "https://x"
        none none 1 0
      = (Except.error (RestTemplateService.mapAndThrowError err401), 2) :=
  (claim_C1_retry_behaviour RestTemplateService.template transport401 "GET" "https://x"
      none none).2.2 (AbstractRestTemplate.buildBaseConfig RestTemplateService.template none)
    err401 rfl rfl rfl

/-- C10: each public verb method invokes the shared routine with the retry
budget left at its default of 0 and the dispatch index at 0; with budget 0
every captured failure, including one with status 401, goes straight to
mapAndThrowError with no further dispatch, so the retry is unreachable from
the public interface; and a caller of the protected routine that passes a
positive budget does reach the retry on a 401 failure. -/
theorem claim_C10_public_verbs_default_budget {T : Type} (t : RestTemplate)
    (transport : Transport T) (url : String) (body : Option String)
    (options : Option RestRequestOption) :
    AbstractRestTemplate.get t transport url options
      = AbstractRestTemplate.request t transport "GET" url none options 0 0
    ∧ AbstractRestTemplate.post t transport url body options
      = AbstractRestTemplate.request t transport "POST" url body options 0 0
    ∧ AbstractRestTemplate.put t transport url body options
      = AbstractRestTemplate.request t transport "PUT" url body options 0 0
    ∧ AbstractRestTemplate.patch t transport url body options
      = AbstractRestTemplate.request t transport "PATCH" url body options 0 0
    ∧ AbstractRestTemplate.delete t transport url options
      = AbstractRestTemplate.request t transport "DELETE" url none options 0 0
    ∧ (∀ method body2 e used,
        AbstractRestTemplate.attemptOnce t transport method url body2 options 0
          = (Except.error e, used) →
        AbstractRestTemplate.request t transport method url body2 options 0 0
          = (Except.error (t.mapAndThrowError e), used))
    ∧ (∀ e used,
        AbstractRestTemplate.attemptOnce t transport "GET" url none options 0
          = (Except.error e, used) →
        e.response.map AxiosErrorResponse.status = some 401 →
        AbstractRestTemplate.get t transport url options
          = (Except.error (t.mapAndThrowError e), used))
    ∧ (∀ budget attempt e used,
        AbstractRestTemplate.attemptOnce t transport "GET" url none options attempt
          = (Except.error e, used) →
        e.response.map AxiosErrorResponse.status = some 401 → 0 < budget →
        AbstractRestTemplate.request t transport "GET" url none options budget attempt
          = AbstractRestTemplate.request t transport "GET" url none options (budget - 1)
              (attempt + used)) := by
  refine ⟨rfl, rfl, rfl, rfl, rfl, ?_, ?_, ?_⟩
  · intro method body2 e used hao
    have h := request_attempt_error_stop t transport method url body2 options 0 0 e used hao
      (fun hc => absurd hc.2 (by omega))
    simpa using h
  · intro e used hao h401
    have h := request_attempt_error_stop t transport "GET" url none options 0 0 e used hao
      (fun hc => absurd hc.2 (by omega))
    simpa [AbstractRestTemplate.get] using h
  · intro budget attempt e used hao h401 hpos
    exact request_attempt_error_retry t transport "GET" url none options budget attempt
      e used hao h401 hpos

theorem claim_C10_witness :
    AbstractRestTemplate.get RestTemplateService.template transport401 "https://x" none
      = (Except.error (RestTemplateService.mapAndThrowError err401), 1) :=
  (claim_C10_public_verbs_default_budget RestTemplateService.template transport401 "https://x"
      none none).2.2.2.2.2.2.1 err401 1 rfl rfl
